import Mathlib

/-!
Shallow embedding of the profile-management views of the breakout ride-hailing
service (`src/users/views.py` and `src/users/serializers.py`), covering the
Passenger and Rider view sets: ownership-filtered querysets, the `my_profile`
lookups, the cached `available_riders` listing, and `update_location` with its
cache invalidation.

Modelling conventions:
- The Django ORM stores are plain lists of records; a row's primary key is the
  `id` field and `save()` writes the record back by primary key.
- `users.models` is not part of the sources; the `User`, `Passenger` and
  `Rider` record fields are taken from the field lists of
  `src/users/serializers.py`.  The store-managed `created_at`/`updated_at`
  timestamps are not modelled (they appear only as read-only serializer
  output).
- The cache (`django.core.cache.cache`) is used with the single key
  `available_riders`; it is modelled as one optional slot holding the cached
  value together with its absolute expiry time.  `cache.get` returns the value
  while the current time is strictly below the expiry, `cache.set k v 300`
  stores the value with expiry `now + 300`, and `cache.delete` empties the
  slot.
- DRF's `get_object` for detail actions looks the primary key up in the
  (ownership-filtered) queryset returned by `get_queryset` and yields an HTTP
  404 when it is absent, before any handler code runs.
-/

namespace Breakout

/-- A user record; identity fields follow `UserSerializer`, plus the
`is_staff` flag consulted by `get_queryset`. -/
structure User where
  id : Nat
  email : String
  first_name : String
  last_name : String
  phone_number : String
  user_type : String
  date_joined : Nat
  is_staff : Bool
deriving DecidableEq

/-- A passenger profile record; fields follow `PassengerSerializer`
(`user` is the owning user's primary key). -/
structure Passenger where
  id : Nat
  user : Nat
  passenger_id : String
  preferred_payment_method : String
  home_address : String
  profile_picture : String
  preferred_language : String
  emergency_contact : String
  is_verified : Bool
deriving DecidableEq

/-- A rider profile record; fields follow `RiderSerializer`
(`user` is the owning user's primary key). -/
structure Rider where
  id : Nat
  user : Nat
  profile_picture : String
  license_number : String
  license_picture : String
  id_number_picture : String
  verification_status : String
  verification_notes : String
  is_available : Bool
  current_latitude : Option Int
  current_longitude : Option Int
  average_rating : Int
  total_rides : Nat
  total_earnings : Int
deriving DecidableEq

/-- The output of `UserSerializer`: the nested read-only user summary. -/
structure UserView where
  id : Nat
  email : String
  first_name : String
  last_name : String
  phone_number : String
  user_type : String
  date_joined : Nat
deriving DecidableEq

/-- The output of `RiderSerializer` for one rider (timestamps omitted,
see the module conventions). -/
structure RiderView where
  id : Nat
  user : Option UserView
  profile_picture : String
  license_number : String
  license_picture : String
  id_number_picture : String
  verification_status : String
  verification_notes : String
  is_available : Bool
  current_latitude : Option Int
  current_longitude : Option Int
  average_rating : Int
  total_rides : Nat
  total_earnings : Int
deriving DecidableEq

/-- The output of `PassengerSerializer` for one passenger (timestamps
omitted, see the module conventions). -/
structure PassengerView where
  id : Nat
  user : Option UserView
  passenger_id : String
  preferred_payment_method : String
  home_address : String
  profile_picture : String
  preferred_language : String
  emergency_contact : String
  is_verified : Bool
deriving DecidableEq

/-- `UserSerializer`: project the serialized fields of a user record. -/
def serializeUser (u : User) : UserView :=
  { id := u.id, email := u.email, first_name := u.first_name
    last_name := u.last_name, phone_number := u.phone_number
    user_type := u.user_type, date_joined := u.date_joined }

/-- `RiderSerializer`: serialize a rider, resolving the owning-user foreign
key against the user store for the nested `UserSerializer` output. -/
def serializeRider (users : List User) (r : Rider) : RiderView :=
  { id := r.id
    user := (users.find? (fun u => u.id == r.user)).map serializeUser
    profile_picture := r.profile_picture
    license_number := r.license_number
    license_picture := r.license_picture
    id_number_picture := r.id_number_picture
    verification_status := r.verification_status
    verification_notes := r.verification_notes
    is_available := r.is_available
    current_latitude := r.current_latitude
    current_longitude := r.current_longitude
    average_rating := r.average_rating
    total_rides := r.total_rides
    total_earnings := r.total_earnings }

/-- `PassengerSerializer`: serialize a passenger, resolving the owning-user
foreign key for the nested `UserSerializer` output. -/
def serializePassenger (users : List User) (p : Passenger) : PassengerView :=
  { id := p.id
    user := (users.find? (fun u => u.id == p.user)).map serializeUser
    passenger_id := p.passenger_id
    preferred_payment_method := p.preferred_payment_method
    home_address := p.home_address
    profile_picture := p.profile_picture
    preferred_language := p.preferred_language
    emergency_contact := p.emergency_contact
    is_verified := p.is_verified }

/-- Response bodies produced by the modelled handlers. -/
inductive Body where
  | riderList : List RiderView → Body
  | riderOne : RiderView → Body
  | passengerList : List PassengerView → Body
  | passengerOne : PassengerView → Body
  | err : String → Body
deriving DecidableEq

/-- An HTTP response: status code and body. -/
structure Response where
  status : Nat
  body : Body
deriving DecidableEq

/-- The persistent state touched by the modelled handlers: the three record
stores and the single `available_riders` cache slot (cached value paired
with its absolute expiry time). -/
structure St where
  users : List User
  passengers : List Passenger
  riders : List Rider
  cache : Option (List RiderView × Nat)
deriving DecidableEq

/-- `cache.get('available_riders')` at time `now`: the cached value while the
slot is occupied and unexpired, `None` otherwise. -/
def cacheGet (s : St) (now : Nat) : Option (List RiderView) :=
  match s.cache with
  | some (v, expiry) => if now < expiry then some v else none
  | none => none

/-- `RiderViewSet.get_queryset`: staff see all riders, everyone else only
their own. -/
def riderQueryset (requester : User) (s : St) : List Rider :=
  if requester.is_staff then s.riders
  else s.riders.filter (fun r => r.user == requester.id)

/-- `PassengerViewSet.get_queryset`: staff see all passengers, everyone else
only their own. -/
def passengerQueryset (requester : User) (s : St) : List Passenger :=
  if requester.is_staff then s.passengers
  else s.passengers.filter (fun p => p.user == requester.id)

/-- DRF `get_object` for rider detail actions: primary-key lookup in the
ownership-filtered queryset. -/
def getObjectRider (requester : User) (pk : Nat) (s : St) : Option Rider :=
  (riderQueryset requester s).find? (fun r => r.id == pk)

/-- DRF `get_object` for passenger detail actions: primary-key lookup in the
ownership-filtered queryset. -/
def getObjectPassenger (requester : User) (pk : Nat) (s : St) : Option Passenger :=
  (passengerQueryset requester s).find? (fun p => p.id == pk)

/-- `GET /riders/` (`list`): serialize the ownership-filtered queryset. -/
def listRiders (requester : User) (s : St) : List RiderView :=
  (riderQueryset requester s).map (serializeRider s.users)

/-- `GET /passengers/` (`list`): serialize the ownership-filtered queryset. -/
def listPassengers (requester : User) (s : St) : List PassengerView :=
  (passengerQueryset requester s).map (serializePassenger s.users)

/-- `GET /riders/{pk}/` (`retrieve`): 200 with the serialized rider when the
queryset lookup succeeds, DRF's 404 otherwise. -/
def retrieveRider (requester : User) (pk : Nat) (s : St) : Response :=
  match getObjectRider requester pk s with
  | some r => { status := 200, body := .riderOne (serializeRider s.users r) }
  | none => { status := 404, body := .err "Not found." }

/-- `GET /passengers/{pk}/` (`retrieve`): 200 with the serialized passenger
when the queryset lookup succeeds, DRF's 404 otherwise. -/
def retrievePassenger (requester : User) (pk : Nat) (s : St) : Response :=
  match getObjectPassenger requester pk s with
  | some p => { status := 200, body := .passengerOne (serializePassenger s.users p) }
  | none => { status := 404, body := .err "Not found." }

/-- `GET /riders/my_profile/`: `Rider.objects.get(user=request.user)` on the
unfiltered store, 404 with the structured error body when absent. -/
def myProfileRider (requester : User) (s : St) : Response :=
  match s.riders.find? (fun r => r.user == requester.id) with
  | some r => { status := 200, body := .riderOne (serializeRider s.users r) }
  | none => { status := 404, body := .err "Rider profile not found" }

/-- `GET /passengers/my_profile/`: `Passenger.objects.get(user=request.user)`
on the unfiltered store, 404 with the structured error body when absent. -/
def myProfilePassenger (requester : User) (s : St) : Response :=
  match s.passengers.find? (fun p => p.user == requester.id) with
  | some p => { status := 200, body := .passengerOne (serializePassenger s.users p) }
  | none => { status := 404, body := .err "Passenger profile not found" }

/-- The filter predicate of the `available_riders` query:
`is_available=True, verification_status='approved'`. -/
def availablePred (r : Rider) : Bool :=
  r.is_available && r.verification_status == "approved"

/-- `GET /riders/available_riders/`: return the cached list when
`cache.get` is not `None`, otherwise recompute the filtered serialization,
store it with a 300-second timeout, and return it.  Always a 200 response;
the returned pair is (payload, new state). -/
def availableRiders (s : St) (now : Nat) : List RiderView × St :=
  match cacheGet s now with
  | some v => (v, s)
  | none =>
    let v := (s.riders.filter availablePred).map (serializeRider s.users)
    (v, { s with cache := some (v, now + 300) })

/-- `PATCH /riders/{pk}/update_location/`: queryset lookup (404 when the
rider is hidden or absent), the view's explicit owner-or-staff check (403),
then the optional coordinate assignments, `rider.save()` (write-back by
primary key), and `cache.delete('available_riders')`. -/
def updateLocation (requester : User) (pk : Nat)
    (latitude longitude : Option Int) (s : St) : Response × St :=
  match getObjectRider requester pk s with
  | none => ({ status := 404, body := .err "Not found." }, s)
  | some rider =>
    if rider.user != requester.id && !requester.is_staff then
      ({ status := 403, body := .err "Permission denied" }, s)
    else
      let rider1 :=
        match latitude with
        | some v => { rider with current_latitude := some v }
        | none => rider
      let rider2 :=
        match longitude with
        | some v => { rider1 with current_longitude := some v }
        | none => rider1
      let s1 := { s with
        riders := s.riders.map (fun r => if r.id == rider.id then rider2 else r)
        cache := none }
      ({ status := 200, body := .riderOne (serializeRider s1.users rider2) }, s1)

/-- A partial-update payload for the generic rider update paths
(`PUT`/`PATCH /riders/{pk}/`): one optional entry per writable field of
`RiderSerializer` (`id`, `user`, `average_rating`, `total_rides`,
`total_earnings` and the timestamps are read-only and hence absent).
`none` means the field is not in the request body. -/
structure RiderUpdatePayload where
  profile_picture : Option String
  license_number : Option String
  license_picture : Option String
  id_number_picture : Option String
  verification_status : Option String
  verification_notes : Option String
  is_available : Option Bool
  current_latitude : Option Int
  current_longitude : Option Int
deriving DecidableEq

/-- Apply a validated partial-update payload to a rider record
(serializer `update`: each supplied writable field overwrites the stored
one, everything else is untouched). -/
def applyRiderUpdate (p : RiderUpdatePayload) (r : Rider) : Rider :=
  { r with
    profile_picture := p.profile_picture.getD r.profile_picture
    license_number := p.license_number.getD r.license_number
    license_picture := p.license_picture.getD r.license_picture
    id_number_picture := p.id_number_picture.getD r.id_number_picture
    verification_status := p.verification_status.getD r.verification_status
    verification_notes := p.verification_notes.getD r.verification_notes
    is_available := p.is_available.getD r.is_available
    current_latitude :=
      match p.current_latitude with
      | some v => some v
      | none => r.current_latitude
    current_longitude :=
      match p.current_longitude with
      | some v => some v
      | none => r.current_longitude }

/-- The generic `PATCH /riders/{pk}/` update inherited from
`ModelViewSet`: queryset lookup, serializer update, `save()` (write-back by
primary key).  No cache access happens anywhere on this path. -/
def genericUpdateRider (requester : User) (pk : Nat)
    (p : RiderUpdatePayload) (s : St) : Response × St :=
  match getObjectRider requester pk s with
  | none => ({ status := 404, body := .err "Not found." }, s)
  | some rider =>
    let rider2 := applyRiderUpdate p rider
    ({ status := 200, body := .riderOne (serializeRider s.users rider2) },
     { s with riders := s.riders.map (fun r => if r.id == rider.id then rider2 else r) })

/-- A create payload for `POST /passengers/`: the writable fields of
`PassengerSerializer`, plus the `user` entry a client may try to submit —
the serializer declares `user` read-only, so that entry is ignored. -/
structure PassengerPayload where
  user : Option Nat
  passenger_id : String
  preferred_payment_method : String
  home_address : String
  profile_picture : String
  preferred_language : String
  emergency_contact : String
  is_verified : Bool
deriving DecidableEq

/-- A create payload for `POST /riders/`: the writable fields of
`RiderSerializer`, plus the ignored read-only `user` entry. -/
structure RiderPayload where
  user : Option Nat
  profile_picture : String
  license_number : String
  license_picture : String
  id_number_picture : String
  verification_status : String
  verification_notes : String
  is_available : Bool
  current_latitude : Option Int
  current_longitude : Option Int
deriving DecidableEq

/-- Store-generated primary key for a new passenger row (auto-increment). -/
def freshPassengerId (s : St) : Nat :=
  (s.passengers.foldl (fun m p => max m p.id) 0) + 1

/-- Store-generated primary key for a new rider row (auto-increment). -/
def freshRiderId (s : St) : Nat :=
  (s.riders.foldl (fun m r => max m r.id) 0) + 1

/-- `POST /passengers/` (`create` with `perform_create`):
`serializer.save(user=self.request.user)` — the owner is stamped from the
authenticated requester, and any submitted `user` entry is discarded by the
read-only serializer field.  Returns the persisted record and new state. -/
def createPassenger (requester : User) (p : PassengerPayload) (s : St) :
    Passenger × St :=
  let rec0 : Passenger :=
    { id := freshPassengerId s
      user := requester.id
      passenger_id := p.passenger_id
      preferred_payment_method := p.preferred_payment_method
      home_address := p.home_address
      profile_picture := p.profile_picture
      preferred_language := p.preferred_language
      emergency_contact := p.emergency_contact
      is_verified := p.is_verified }
  (rec0, { s with passengers := s.passengers ++ [rec0] })

/-- `POST /riders/` (`create` with `perform_create`): as for passengers,
the owner is stamped from the authenticated requester.  The server-computed
fields (`average_rating`, `total_rides`, `total_earnings`) are read-only and
initialised to zero by the store. -/
def createRider (requester : User) (p : RiderPayload) (s : St) :
    Rider × St :=
  let rec0 : Rider :=
    { id := freshRiderId s
      user := requester.id
      profile_picture := p.profile_picture
      license_number := p.license_number
      license_picture := p.license_picture
      id_number_picture := p.id_number_picture
      verification_status := p.verification_status
      verification_notes := p.verification_notes
      is_available := p.is_available
      current_latitude := p.current_latitude
      current_longitude := p.current_longitude
      average_rating := 0
      total_rides := 0
      total_earnings := 0 }
  (rec0, { s with riders := s.riders ++ [rec0] })

/-! Concrete sample data used by the witness and counterexample theorems. -/

/-- Sample non-staff user who owns rider 1. -/
def uAlice : User :=
  { id := 1, email := "alice@example.com", first_name := "Alice", last_name := "Ade"
    phone_number := "0700000001", user_type := "rider", date_joined := 10, is_staff := false }

/-- Sample non-staff user who owns rider 2. -/
def uBob : User :=
  { id := 2, email := "bob@example.com", first_name := "Bob", last_name := "Bee"
    phone_number := "0700000002", user_type := "rider", date_joined := 20, is_staff := false }

/-- Sample staff user owning no profile. -/
def uStaff : User :=
  { id := 3, email := "staff@example.com", first_name := "Sam", last_name := "Staff"
    phone_number := "0700000003", user_type := "admin", date_joined := 5, is_staff := true }

/-- Sample rider owned by `uAlice`: available and approved. -/
def rAlice : Rider :=
  { id := 1, user := 1, profile_picture := "a.png", license_number := "LIC-1"
    license_picture := "al.png", id_number_picture := "ai.png"
    verification_status := "approved", verification_notes := ""
    is_available := true, current_latitude := some 10, current_longitude := some 20
    average_rating := 4, total_rides := 12, total_earnings := 900 }

/-- Sample rider owned by `uBob`: approved but not available. -/
def rBob : Rider :=
  { id := 2, user := 2, profile_picture := "b.png", license_number := "LIC-2"
    license_picture := "bl.png", id_number_picture := "bi.png"
    verification_status := "approved", verification_notes := ""
    is_available := false, current_latitude := none, current_longitude := none
    average_rating := 5, total_rides := 3, total_earnings := 200 }

/-- Sample passenger owned by `uBob`. -/
def pBob : Passenger :=
  { id := 1, user := 2, passenger_id := "P-2", preferred_payment_method := "cash"
    home_address := "5 Main St", profile_picture := "pb.png"
    preferred_language := "en", emergency_contact := "0711", is_verified := true }

/-- Sample state with an empty cache slot. -/
def stMiss : St :=
  { users := [uAlice, uBob], passengers := [pBob], riders := [rAlice, rBob], cache := none }

/-- Sample state holding only the unavailable rider Bob, empty cache. -/
def stBobOnly : St :=
  { users := [uBob], passengers := [], riders := [rBob], cache := none }

/-- Sample state whose cache slot holds an (empty) list until time 100. -/
def stHit : St :=
  { users := [uAlice, uBob], passengers := [pBob], riders := [rAlice, rBob]
    cache := some ([], 100) }

/-- Rider Bob with `is_available` switched on (the post-update record of
the C3 scenario and the second available rider of the C8 scenario). -/
def rBobAvail : Rider := { rBob with is_available := true }

/-- Generic-update payload that only sets `is_available = true`. -/
def pAvailTrue : RiderUpdatePayload :=
  { profile_picture := none, license_number := none, license_picture := none
    id_number_picture := none, verification_status := none
    verification_notes := none, is_available := some true
    current_latitude := none, current_longitude := none }

/-- Sample state for the C3 scenario: riders Alice (available, approved)
and Bob (unavailable, approved), cache populated with the Alice-only list
until time 400. -/
def stC3 : St :=
  { users := [uAlice, uBob], passengers := [pBob], riders := [rAlice, rBob]
    cache := some ([serializeRider [uAlice, uBob] rAlice], 400) }

/-- Sample state for the C8 counterexample: both riders available and
approved, but the slot still holds the stale Alice-only list and expires
at time 300. -/
def stC8 : St :=
  { users := [uAlice, uBob], passengers := [], riders := [rAlice, rBobAvail]
    cache := some ([serializeRider [uAlice, uBob] rAlice], 300) }

/-! Theorems settling the claims. -/

/-- A successful rider detail lookup yields a record from the rider store
whose primary key is the requested one. -/
theorem getObjectRider_mem (u : User) (pk : Nat) (s : St) (r : Rider)
    (h : getObjectRider u pk s = some r) : r ∈ s.riders ∧ r.id = pk := by
  unfold getObjectRider at h
  constructor
  · have hmem := List.mem_of_find?_eq_some h
    unfold riderQueryset at hmem
    by_cases hst : u.is_staff = true
    · simpa [hst] using hmem
    · rw [Bool.not_eq_true] at hst
      simp only [hst, Bool.false_eq_true, if_false] at hmem
      exact List.mem_of_mem_filter hmem
  · simpa using List.find?_some h

/-- A cache hit: when the slot is occupied and unexpired,
`available_riders` returns its value and leaves the state untouched. -/
theorem availableRiders_hit (s : St) (now : Nat) (v : List RiderView)
    (h : cacheGet s now = some v) : availableRiders s now = (v, s) := by
  simp [availableRiders, h]

/-- Claim C1: `available_riders` returns the cached serialized list verbatim
when the slot holds an unexpired entry, and otherwise returns exactly the
serialization of the riders with `is_available = true` and
`verification_status = "approved"`, storing it in the slot with a
300-second time-to-live. -/
theorem C1_available_riders_read_through (s : St) (now : Nat) :
    (∀ v, cacheGet s now = some v → availableRiders s now = (v, s)) ∧
    (cacheGet s now = none →
      (availableRiders s now).1 =
        (s.riders.filter
          (fun r => r.is_available && r.verification_status == "approved")).map
          (serializeRider s.users) ∧
      (availableRiders s now).2 =
        { s with cache := some ((availableRiders s now).1, now + 300) }) := by
  refine ⟨fun v hv => ?_, fun hv => ?_⟩
  · simp [availableRiders, hv]
  · simp only [availableRiders, hv]
    exact ⟨rfl, by simp⟩

/-- Witness for C1: a concrete cache hit returns the slot verbatim, and a
concrete miss recomputes and fills the slot. -/
theorem C1_available_riders_read_through_witness :
    availableRiders stHit 7 = ([], stHit) ∧
    ((availableRiders stMiss 0).1 =
      (stMiss.riders.filter
        (fun r => r.is_available && r.verification_status == "approved")).map
        (serializeRider stMiss.users) ∧
     (availableRiders stMiss 0).2 =
       { stMiss with cache := some ((availableRiders stMiss 0).1, 0 + 300) }) :=
  ⟨(C1_available_riders_read_through stHit 7).1 [] (by decide),
   (C1_available_riders_read_through stMiss 0).2 (by decide)⟩

/-- Claim C2: after every successful (status 200) `update_location` call
the `available_riders` cache slot is empty, so any later
`available_riders` call is a cache miss and recomputes freshly from the
rider store, at every time `t` — TTL notwithstanding. -/
theorem C2_update_location_invalidates (u : User) (pk : Nat)
    (lat lon : Option Int) (s : St)
    (h : ((updateLocation u pk lat lon s).1).status = 200) :
    (updateLocation u pk lat lon s).2.cache = none ∧
    (∀ t, cacheGet (updateLocation u pk lat lon s).2 t = none) ∧
    (∀ t, (availableRiders (updateLocation u pk lat lon s).2 t).1 =
      ((updateLocation u pk lat lon s).2.riders.filter
        (fun r => r.is_available && r.verification_status == "approved")).map
        (serializeRider (updateLocation u pk lat lon s).2.users)) := by
  cases hobj : getObjectRider u pk s with
  | none => simp [updateLocation, hobj] at h
  | some rider =>
    by_cases hg : (rider.user != u.id && !u.is_staff) = true
    · simp [updateLocation, hobj, hg] at h
    · rw [Bool.not_eq_true] at hg
      have hcache : (updateLocation u pk lat lon s).2.cache = none := by
        simp [updateLocation, hobj, hg]
      have hget : ∀ t, cacheGet (updateLocation u pk lat lon s).2 t = none := by
        intro t; simp [cacheGet, hcache]
      refine ⟨hcache, hget, fun t => ?_⟩
      simp only [availableRiders, hget t]
      rfl

/-- Witness for C2: a concrete owner-issued location update succeeds and
empties the cache slot. -/
theorem C2_update_location_invalidates_witness :
    ((updateLocation uAlice 1 (some 5) none stHit).1).status = 200 ∧
    (updateLocation uAlice 1 (some 5) none stHit).2.cache = none :=
  ⟨by decide,
   (C2_update_location_invalidates uAlice 1 (some 5) none stHit (by decide)).1⟩

/-- Claim C5: a created Passenger or Rider profile is persisted with its
owner equal to the authenticated requester, whatever `user` entry the
payload carried (the payload's `user` field is universally quantified, so
in particular `some u2` for any other user `u2`). -/
theorem C5_create_stamps_owner (u : User) (pp : PassengerPayload)
    (rp : RiderPayload) (s : St) :
    (createPassenger u pp s).1.user = u.id ∧
    (createPassenger u pp s).1 ∈ (createPassenger u pp s).2.passengers ∧
    (createRider u rp s).1.user = u.id ∧
    (createRider u rp s).1 ∈ (createRider u rp s).2.riders := by
  refine ⟨rfl, ?_, rfl, ?_⟩ <;> simp [createPassenger, createRider]

/-- Claim C7: a requester owning no rider profile gets 404 with body
`{error: "Rider profile not found"}` from `GET /riders/my_profile/`, and
analogously for passengers. -/
theorem C7_my_profile_not_found (u : User) (s : St)
    (hr : ∀ r ∈ s.riders, r.user ≠ u.id)
    (hp : ∀ p ∈ s.passengers, p.user ≠ u.id) :
    myProfileRider u s = { status := 404, body := .err "Rider profile not found" } ∧
    myProfilePassenger u s =
      { status := 404, body := .err "Passenger profile not found" } := by
  have h1 : s.riders.find? (fun r => r.user == u.id) = none :=
    List.find?_eq_none.mpr (fun r hrm => by simpa using hr r hrm)
  have h2 : s.passengers.find? (fun p => p.user == u.id) = none :=
    List.find?_eq_none.mpr (fun p hpm => by simpa using hp p hpm)
  exact ⟨by simp [myProfileRider, h1], by simp [myProfilePassenger, h2]⟩

/-- Witness for C7: the staff user owns no profile, and both `my_profile`
lookups answer the structured 404. -/
theorem C7_my_profile_not_found_witness :
    myProfileRider uStaff stMiss =
      { status := 404, body := .err "Rider profile not found" } ∧
    myProfilePassenger uStaff stMiss =
      { status := 404, body := .err "Passenger profile not found" } :=
  C7_my_profile_not_found uStaff stMiss (by decide) (by decide)

/-- Claim C4: `list` returns exactly the policy-permitted subset — staff see
every profile of the type; a non-staff requester's list contains only
profiles they own, and `retrieve` of a profile they do not own answers 404
(filtered out by the queryset). -/
theorem C4_list_scoped_by_policy (u : User) (s : St) :
    (u.is_staff = true →
      (∀ r ∈ s.riders, serializeRider s.users r ∈ listRiders u s) ∧
      (∀ p ∈ s.passengers, serializePassenger s.users p ∈ listPassengers u s)) ∧
    (u.is_staff = false →
      (∀ v ∈ listRiders u s,
        ∃ r, r ∈ s.riders ∧ r.user = u.id ∧ v = serializeRider s.users r) ∧
      (∀ v ∈ listPassengers u s,
        ∃ p, p ∈ s.passengers ∧ p.user = u.id ∧ v = serializePassenger s.users p) ∧
      (∀ pk, (∀ r ∈ s.riders, r.id = pk → r.user ≠ u.id) →
        (retrieveRider u pk s).status = 404) ∧
      (∀ pk, (∀ p ∈ s.passengers, p.id = pk → p.user ≠ u.id) →
        (retrievePassenger u pk s).status = 404)) := by
  constructor
  · intro hstaff
    constructor
    · intro r hrm
      simp only [listRiders, riderQueryset, hstaff, if_true]
      exact List.mem_map_of_mem _ hrm
    · intro p hpm
      simp only [listPassengers, passengerQueryset, hstaff, if_true]
      exact List.mem_map_of_mem _ hpm
  · intro hstaff
    refine ⟨?_, ?_, ?_, ?_⟩
    · intro v hv
      simp only [listRiders, riderQueryset, hstaff, Bool.false_eq_true, if_false] at hv
      obtain ⟨r, hrf, heq⟩ := List.mem_map.mp hv
      obtain ⟨hrm, hpred⟩ := List.mem_filter.mp hrf
      exact ⟨r, hrm, by simpa using hpred, heq.symm⟩
    · intro v hv
      simp only [listPassengers, passengerQueryset, hstaff, Bool.false_eq_true,
        if_false] at hv
      obtain ⟨p, hpf, heq⟩ := List.mem_map.mp hv
      obtain ⟨hpm, hpred⟩ := List.mem_filter.mp hpf
      exact ⟨p, hpm, by simpa using hpred, heq.symm⟩
    · intro pk hno
      have hobj : getObjectRider u pk s = none := by
        simp only [getObjectRider, riderQueryset, hstaff, Bool.false_eq_true, if_false]
        apply List.find?_eq_none.mpr
        intro r hrf hb
        obtain ⟨hrm, hpred⟩ := List.mem_filter.mp hrf
        exact hno r hrm (by simpa using hb) (by simpa using hpred)
      simp [retrieveRider, hobj]
    · intro pk hno
      have hobj : getObjectPassenger u pk s = none := by
        simp only [getObjectPassenger, passengerQueryset, hstaff, Bool.false_eq_true,
          if_false]
        apply List.find?_eq_none.mpr
        intro p hpf hb
        obtain ⟨hpm, hpred⟩ := List.mem_filter.mp hpf
        exact hno p hpm (by simpa using hb) (by simpa using hpred)
      simp [retrievePassenger, hobj]

/-- Witness for C4: the staff list contains Bob's rider (not owned by
staff), while non-staff Alice retrieving Bob's rider gets 404. -/
theorem C4_list_scoped_by_policy_witness :
    serializeRider stMiss.users rBob ∈ listRiders uStaff stMiss ∧
    (retrieveRider uAlice 2 stMiss).status = 404 :=
  ⟨((C4_list_scoped_by_policy uStaff stMiss).1 rfl).1 rBob (by decide),
   ((C4_list_scoped_by_policy uAlice stMiss).2 rfl).2.2.1 2 (by decide)⟩

/-- Claim C9: with no available approved rider and an empty (or expired)
slot, `available_riders` caches the empty list like any other value, and a
second call within the TTL is a cache hit on `some []` — the presence test
is `is not None`, not truthiness. -/
theorem C9_empty_list_cached (s : St) (now now2 : Nat)
    (hempty : ∀ r ∈ s.riders,
      ¬(r.is_available = true ∧ r.verification_status = "approved"))
    (hmiss : cacheGet s now = none)
    (h12 : now ≤ now2) (httl : now2 < now + 300) :
    (availableRiders s now).1 = [] ∧
    (availableRiders s now).2.cache = some ([], now + 300) ∧
    cacheGet (availableRiders s now).2 now2 = some [] ∧
    availableRiders (availableRiders s now).2 now2 =
      ([], (availableRiders s now).2) := by
  have hfil : s.riders.filter availablePred = [] := by
    apply List.filter_eq_nil_iff.mpr
    intro r hrm hb
    exact hempty r hrm (by simpa [availablePred] using hb)
  have h1 : availableRiders s now = ([], { s with cache := some ([], now + 300) }) := by
    simp [availableRiders, hmiss, hfil]
  rw [h1]
  refine ⟨rfl, rfl, ?_, ?_⟩
  · simp [cacheGet, httl]
  · simp [availableRiders, cacheGet, httl]

/-- Witness for C9: only the unavailable rider Bob exists; the first call
caches `[]` and the second call 100 seconds later hits `some []`. -/
theorem C9_empty_list_cached_witness :
    (availableRiders stBobOnly 0).1 = [] ∧
    (availableRiders stBobOnly 0).2.cache = some ([], 0 + 300) ∧
    cacheGet (availableRiders stBobOnly 0).2 100 = some [] ∧
    availableRiders (availableRiders stBobOnly 0).2 100 =
      ([], (availableRiders stBobOnly 0).2) :=
  C9_empty_list_cached stBobOnly 0 100 (by decide) (by decide) (by decide) (by decide)

/-- Claim C10: for an authorized `update_location` with neither coordinate
supplied the call answers 200, writes the rider back unchanged (the store
is identical) and still deletes the cache slot; with exactly one
coordinate supplied, the stored record is the old rider with only that
coordinate overwritten. -/
theorem C10_update_location_frame (u : User) (pk : Nat) (s : St) (rider : Rider)
    (hobj : getObjectRider u pk s = some rider)
    (hauth : rider.user = u.id ∨ u.is_staff = true)
    (huniq : ∀ r ∈ s.riders, r.id = rider.id → r = rider) :
    ((updateLocation u pk none none s).1.status = 200 ∧
     (updateLocation u pk none none s).2.riders = s.riders ∧
     (updateLocation u pk none none s).2.cache = none) ∧
    (∀ lat : Int,
      (updateLocation u pk (some lat) none s).1.status = 200 ∧
      (updateLocation u pk (some lat) none s).2.cache = none ∧
      (updateLocation u pk (some lat) none s).2.riders =
        s.riders.map (fun r => if r.id == rider.id
          then { rider with current_latitude := some lat } else r)) ∧
    (∀ lon : Int,
      (updateLocation u pk none (some lon) s).1.status = 200 ∧
      (updateLocation u pk none (some lon) s).2.cache = none ∧
      (updateLocation u pk none (some lon) s).2.riders =
        s.riders.map (fun r => if r.id == rider.id
          then { rider with current_longitude := some lon } else r)) := by
  have hguard : (rider.user != u.id && !u.is_staff) = false := by
    rcases hauth with h | h <;> simp [h]
  have hwriteback : ∀ r ∈ s.riders, (if r.id == rider.id then rider else r) = r := by
    intro r hrm
    by_cases hid : (r.id == rider.id) = true
    · rw [if_pos hid, huniq r hrm (by simpa using hid)]
    · rw [if_neg hid]
  refine ⟨⟨?_, ?_, ?_⟩, fun lat => ⟨?_, ?_, ?_⟩, fun lon => ⟨?_, ?_, ?_⟩⟩ <;>
    simp only [updateLocation, hobj, hguard, Bool.false_eq_true, if_false]
  · exact (List.map_congr_left hwriteback).trans (List.map_id' _)

/-- Witness for C10: Alice updating her own rider with an empty payload
gets 200, an unchanged store and an emptied cache; supplying only a
latitude rewrites exactly that coordinate. -/
theorem C10_update_location_frame_witness :
    ((updateLocation uAlice 1 none none stMiss).1.status = 200 ∧
     (updateLocation uAlice 1 none none stMiss).2.riders = stMiss.riders ∧
     (updateLocation uAlice 1 none none stMiss).2.cache = none) ∧
    (updateLocation uAlice 1 (some 7) none stMiss).2.riders =
      stMiss.riders.map (fun r => if r.id == rAlice.id
        then { rAlice with current_latitude := some 7 } else r) :=
  ⟨(C10_update_location_frame uAlice 1 stMiss rAlice (by decide) (Or.inl rfl)
      (by decide)).1,
   ((C10_update_location_frame uAlice 1 stMiss rAlice (by decide) (Or.inl rfl)
      (by decide)).2.1 7).2.2⟩

/-- Claim C3: the generic update path never touches the cache slot — in
the A/B scenario, switching B to available through it leaves the slot
intact, so a later `available_riders` call inside the TTL still serves the
stale Alice-only list even though the store now holds an available B. -/
theorem C3_generic_update_keeps_cache (u : User) (p : RiderUpdatePayload)
    (s : St) (A B : Rider) (e now : Nat)
    (hr : s.riders = [A, B])
    (hA : A.is_available = true ∧ A.verification_status = "approved")
    (hBoff : B.is_available = false)
    (hid : A.id ≠ B.id)
    (hp : p.is_available = some true)
    (hc : s.cache = some ([serializeRider s.users A], e))
    (hnow : now < e)
    (hok : ((genericUpdateRider u B.id p s).1).status = 200) :
    (genericUpdateRider u B.id p s).2.cache = s.cache ∧
    (∃ r2 ∈ (genericUpdateRider u B.id p s).2.riders,
      r2.id = B.id ∧ r2.is_available = true) ∧
    (availableRiders (genericUpdateRider u B.id p s).2 now).1 =
      [serializeRider s.users A] := by
  cases hobj : getObjectRider u B.id s with
  | none => simp [genericUpdateRider, hobj] at hok
  | some rider =>
    obtain ⟨hmem, hpk⟩ := getObjectRider_mem u B.id s rider hobj
    have hcacheEq : (genericUpdateRider u B.id p s).2.cache = s.cache := by
      simp [genericUpdateRider, hobj]
    refine ⟨hcacheEq, ?_, ?_⟩
    · refine ⟨applyRiderUpdate p rider, ?_, hpk, ?_⟩
      · simp only [genericUpdateRider, hobj]
        exact List.mem_map.mpr ⟨rider, hmem, by simp⟩
      · show (applyRiderUpdate p rider).is_available = true
        simp [applyRiderUpdate, hp]
    · have hcg : cacheGet (genericUpdateRider u B.id p s).2 now =
          some [serializeRider s.users A] := by
        simp [cacheGet, hcacheEq, hc, hnow]
      simp [availableRiders, hcg]

/-- Witness for C3: Bob switches his own rider to available through the
generic update; the slot survives and `available_riders` at time 50 still
answers the stale Alice-only list. -/
theorem C3_generic_update_keeps_cache_witness :
    (genericUpdateRider uBob rBob.id pAvailTrue stC3).2.cache = stC3.cache ∧
    (∃ r2 ∈ (genericUpdateRider uBob rBob.id pAvailTrue stC3).2.riders,
      r2.id = rBob.id ∧ r2.is_available = true) ∧
    (availableRiders (genericUpdateRider uBob rBob.id pAvailTrue stC3).2 50).1 =
      [serializeRider stC3.users rAlice] :=
  C3_generic_update_keeps_cache uBob pAvailTrue stC3 rAlice rBob 400 50
    rfl (by decide) rfl (by decide) rfl rfl (by decide) (by decide)

/-- Counterexample for C6: non-staff Alice patches Bob's rider location;
the ownership-filtered queryset hides it, so the response status is 404,
not the claimed 403. -/
theorem C6_counterexample :
    uAlice.is_staff = false ∧
    rBob ∈ stHit.riders ∧ rBob.id = 2 ∧ rBob.user ≠ uAlice.id ∧
    ((updateLocation uAlice 2 (some 9) (some 9) stHit).1).status = 404 ∧
    ((updateLocation uAlice 2 (some 9) (some 9) stHit).1).status ≠ 403 := by
  decide

/-- Claim C6 amended: a non-staff requester patching the location of a
rider they do not own gets status 404 — the rider is filtered out of the
queryset before the view's 403 branch can run — and the state (store and
cache slot alike) is untouched. -/
theorem C6_non_owner_update_location_404 (u : User) (pk : Nat)
    (lat lon : Option Int) (s : St)
    (hstaff : u.is_staff = false)
    (hexists : ∃ r ∈ s.riders, r.id = pk)
    (hother : ∀ r ∈ s.riders, r.id = pk → r.user ≠ u.id) :
    ((updateLocation u pk lat lon s).1).status = 404 ∧
    (updateLocation u pk lat lon s).2 = s := by
  have hobj : getObjectRider u pk s = none := by
    simp only [getObjectRider, riderQueryset, hstaff, Bool.false_eq_true, if_false]
    apply List.find?_eq_none.mpr
    intro r hrf hb
    obtain ⟨hrm, hpred⟩ := List.mem_filter.mp hrf
    exact hother r hrm (by simpa using hb) (by simpa using hpred)
  simp [updateLocation, hobj]

/-- Witness for C6 amended: Alice patching Bob's rider gets 404 and the
state is returned unchanged. -/
theorem C6_non_owner_update_location_404_witness :
    ((updateLocation uAlice 2 (some 9) (some 9) stHit).1).status = 404 ∧
    (updateLocation uAlice 2 (some 9) (some 9) stHit).2 = stHit :=
  C6_non_owner_update_location_404 uAlice 2 (some 9) (some 9) stHit rfl
    ⟨rBob, by decide, rfl⟩ (by decide)

/-- Counterexample for C8: the slot holds a stale Alice-only list expiring
at time 300; calls at 299 and 301 are two seconds apart, with no location
update and no cache clear in between, yet the second call misses the cache
and returns a different payload. -/
theorem C8_counterexample :
    (availableRiders stC8 299).1 = [serializeRider stC8.users rAlice] ∧
    301 - 299 ≤ 300 ∧
    cacheGet (availableRiders stC8 299).2 301 = none ∧
    (availableRiders (availableRiders stC8 299).2 301).1 ≠
      (availableRiders stC8 299).1 := by
  decide

/-- Claim C8 amended: two `available_riders` calls with no intervening
location update or cache clear return identical payloads, with the second
call served from the slot (no second recomputation), provided the entry
serving the first call — pre-existing or freshly written — has not expired
by the second call; when the first call is a miss this just means the
second call falls within the 300-second TTL. -/
theorem C8_idempotent_within_ttl (s : St) (now1 now2 : Nat)
    (h12 : now1 ≤ now2)
    (hmiss : cacheGet s now1 = none → now2 < now1 + 300)
    (hhit : ∀ v, cacheGet s now1 = some v → cacheGet s now2 = some v) :
    (availableRiders (availableRiders s now1).2 now2).1 =
      (availableRiders s now1).1 ∧
    (availableRiders (availableRiders s now1).2 now2).2 =
      (availableRiders s now1).2 ∧
    cacheGet (availableRiders s now1).2 now2 = some (availableRiders s now1).1 := by
  cases hc : cacheGet s now1 with
  | none =>
    have h300 := hmiss hc
    have hstate : (availableRiders s now1).2 =
        { s with cache := some ((availableRiders s now1).1, now1 + 300) } := by
      simp [availableRiders, hc]
    have hcg : cacheGet (availableRiders s now1).2 now2 =
        some (availableRiders s now1).1 := by
      rw [hstate]; simp [cacheGet, h300]
    have hcall2 := availableRiders_hit ((availableRiders s now1).2) now2
      ((availableRiders s now1).1) hcg
    exact ⟨by rw [hcall2], by rw [hcall2], hcg⟩
  | some v =>
    have h2 := hhit v hc
    have h1 : availableRiders s now1 = (v, s) := availableRiders_hit s now1 v hc
    rw [h1]
    have hcall2 := availableRiders_hit s now2 v h2
    exact ⟨by rw [hcall2], by rw [hcall2], h2⟩

/-- Witness for C8 amended: a cold-cache first call at time 0 followed by
a call at time 100 — the second call hits the freshly written slot and
repeats the payload. -/
theorem C8_idempotent_within_ttl_witness :
    (availableRiders (availableRiders stMiss 0).2 100).1 =
      (availableRiders stMiss 0).1 ∧
    (availableRiders (availableRiders stMiss 0).2 100).2 =
      (availableRiders stMiss 0).2 ∧
    cacheGet (availableRiders stMiss 0).2 100 = some (availableRiders stMiss 0).1 :=
  C8_idempotent_within_ttl stMiss 0 100 (by decide) (fun _ => by decide)
    (fun v h => Option.noConfusion
      ((show cacheGet stMiss 0 = none by decide).symm.trans h))

end Breakout
